import Mathlib

/-!
Verification of the friend-engagement reminder engine of the personal-crm
repository (services: checkAndSendFriendReminders / checkEventReminders /
checkSituationReminders / checkLastContactReminders, database client:
getUpcomingEvents / getActiveSituations / getPeopleNeedingContact /
logReminder / markEventReminderSent / updateSituationReminderSent).

Modelling conventions:
* Calendar dates are modelled at day granularity as `Int` (a day number).
  The source computes whole-day differences after truncating both operands
  to midnight (`getDaysUntil` / `getDaysSince`), so a date is exactly a day
  number and a whole-day difference is an `Int` subtraction.
* Database text columns (`severity`, `status`, `priority_level`,
  `relationship`, …) are unconstrained `TEXT` in the migrations and are
  modelled as `String`.
* Row ids (UUIDs in the database) are modelled as `Nat`; only equality of
  ids is ever used by the code.
* The delivery collaborator (SendGrid) and the entity store are modelled by
  outcome oracles: `deliveryOk n` is the outcome of the n-th send attempt of a
  pipeline, `storeOk n` the outcome of its n-th store write.  A failing store
  write raises (the surrounding `await` rethrows); `sendEmailReminder` wraps
  its whole body in try/catch and logs, so a delivery failure never
  propagates to the caller.
* Message rendering keeps the structure of the source formatters; the
  ISO-date rendering of a day number is abstracted as its decimal form and
  literal text is kept close to the source (punctuation simplified).
-/

namespace PersonalCRM

/-- The three event reminder milestones of `checkEventReminders`:
`1week`, `1day`, `dayof`. -/
inductive Milestone where
  | w1
  | d1
  | dayof
deriving DecidableEq

/-- A row of `people` (migration 001/003): only the fields read by the
reminder engine are kept. -/
structure Person where
  id : Nat
  name : String
  relationship : String
  priority_level : String
  last_contact_date : Option Int
deriving DecidableEq

/-- A row of `friend_events` joined with the person (`getUpcomingEvents`
returns `fe.*, p.name, p.relationship`). -/
structure Event where
  id : Nat
  person_id : Nat
  event_type : String
  event_description : String
  event_date : Option Int
  is_recurring : Bool
  reminder_sent_1week : Bool
  reminder_sent_1day : Bool
  reminder_sent_dayof : Bool
  name : String
  relationship : String
deriving DecidableEq

/-- A row of `friend_situations` joined with the person
(`getActiveSituations` returns `fs.*, p.name, p.relationship`). -/
structure Situation where
  id : Nat
  person_id : Nat
  situation_type : String
  situation_description : String
  severity : String
  status : String
  started_at : Int
  last_reminder_sent : Option Int
  name : String
  relationship : String
deriving DecidableEq

/-- A row of `reminder_log` as inserted by `logReminder`. -/
structure LogRow where
  reminder_type : String
  person_id : Nat
  related_event_id : Option Nat
  related_situation_id : Option Nat
  message_sent : String
deriving DecidableEq

/-- `getDaysUntil(date)`: both `now` and `date` are truncated to midnight and
the difference is divided (flooring) by a day of milliseconds; at day
granularity this is the subtraction of day numbers. -/
def getDaysUntil (now date : Int) : Int :=
  date - now

/-- `getDaysSince(date)`: whole days from `date` up to `now`. -/
def getDaysSince (now date : Int) : Int :=
  now - date

/-- The SQL filter of `getUpcomingEvents(days)`:
`event_date IS NOT NULL AND event_date >= CURRENT_DATE AND
 event_date <= CURRENT_DATE + INTERVAL (days)`. -/
def inUpcomingWindow (now days : Int) (e : Event) : Bool :=
  match e.event_date with
  | some d => decide (now ≤ d) && decide (d ≤ now + days)
  | none => false

/-- `ORDER BY fe.event_date ASC` (all selected rows have a date). -/
def eventDateLE (a b : Event) : Bool :=
  decide (a.event_date.getD 0 ≤ b.event_date.getD 0)

/-- `eventDateLE` as a relation, for the sort. -/
def EventDateOrd (a b : Event) : Prop :=
  eventDateLE a b = true

instance : DecidableRel EventDateOrd :=
  fun a b => instDecidableEqBool (eventDateLE a b) true

/-- `getUpcomingEvents(days)`: events with a non-null date inside the
lookahead window, ordered by date ascending. -/
def getUpcomingEvents (now days : Int) (events : List Event) : List Event :=
  (events.filter (inUpcomingWindow now days)).insertionSort EventDateOrd

/-- The decision logic of the event loop in `checkEventReminders`: the three
independent `if` tests, in source order (`1week`, then `1day`, then `dayof`);
an event with no exact date is skipped (`if (!event.event_date) continue`). -/
def eventDue (now : Int) (e : Event) : List Milestone :=
  match e.event_date with
  | none => []
  | some d =>
      let daysUntil := getDaysUntil now d
      ((if daysUntil = 7 ∧ e.reminder_sent_1week = false then [Milestone.w1] else []) ++
        (if daysUntil = 1 ∧ e.reminder_sent_1day = false then [Milestone.d1] else [])) ++
        (if daysUntil = 0 ∧ e.reminder_sent_dayof = false then [Milestone.dayof] else [])

/-- The due-list of the Event-Reminder Evaluator over a snapshot: the
`(event id, milestone)` pairs the loop of `checkEventReminders` dispatches. -/
def eventDueList (now : Int) (events : List Event) : List (Nat × Milestone) :=
  (getUpcomingEvents now 14 events).flatMap fun e =>
    (eventDue now e).map fun m => (e.id, m)

/-- The `reminderInterval` switch of `checkSituationReminders`.  The source
declares `let reminderInterval: number;` and the `switch` has no `default`
case, so for a severity outside high/medium/low the variable stays
`undefined` — modelled as `none`. -/
def reminderIntervalOf (now : Int) (s : Situation) : Option Int :=
  if s.severity = "high" then
    some (if getDaysSince now s.started_at ≤ 14 then 1 else 7)
  else if s.severity = "medium" then some 7
  else if s.severity = "low" then some 14
  else none

/-- `daysSinceLastReminder`: days since `last_reminder_sent`, or the literal
sentinel `999` when it was never sent. -/
def daysSinceLastReminder (now : Int) (s : Situation) : Int :=
  match s.last_reminder_sent with
  | some t => getDaysSince now t
  | none => 999

/-- The due test of `checkSituationReminders`:
`daysSinceLastReminder >= reminderInterval`.  When `reminderInterval` is
`undefined` the JavaScript comparison is false. -/
def situationDue (now : Int) (s : Situation) : Bool :=
  match reminderIntervalOf now s with
  | some i => decide (daysSinceLastReminder now s ≥ i)
  | none => false

/-- Lexicographic comparison of character lists by codepoint: the order
PostgreSQL uses on the TEXT values appearing here (ASCII lowercase words,
on which every common collation agrees with byte order). -/
def charListLt : List Char → List Char → Bool
  | [], [] => false
  | [], _ :: _ => true
  | _ :: _, [] => false
  | a :: as, b :: bs =>
      if a.toNat < b.toNat then true
      else if b.toNat < a.toNat then false
      else charListLt as bs

/-- Strict text comparison of the database. -/
def textLt (a b : String) : Bool :=
  charListLt a.data b.data

/-- `ORDER BY fs.severity DESC, fs.started_at ASC` of `getActiveSituations`:
`severity` is a TEXT column, so `DESC` is descending lexicographic order on
the severity strings. -/
def situationLE (a b : Situation) : Bool :=
  if a.severity = b.severity then decide (a.started_at ≤ b.started_at)
  else textLt b.severity a.severity

/-- `situationLE` as a relation, for the sort. -/
def SituationOrd (a b : Situation) : Prop :=
  situationLE a b = true

instance : DecidableRel SituationOrd :=
  fun a b => instDecidableEqBool (situationLE a b) true

/-- `getActiveSituations`: rows with `status = 'active'`, ordered by
severity text descending, then start date ascending. -/
def getActiveSituations (sits : List Situation) : List Situation :=
  (sits.filter fun s => s.status == "active").insertionSort SituationOrd

/-- The due-list of the Situation-Reminder Evaluator: the situations the
loop of `checkSituationReminders` dispatches, in processing order. -/
def situationDueList (now : Int) (sits : List Situation) : List Situation :=
  (getActiveSituations sits).filter (situationDue now)

/-- The SQL filter of `getPeopleNeedingContact(priorityDays, normalDays)`:
`(priority_level = 'high' AND (last_contact_date IS NULL OR
  last_contact_date < CURRENT_DATE - priorityDays)) OR
 (priority_level = 'normal' AND (last_contact_date IS NULL OR
  last_contact_date < CURRENT_DATE - normalDays))`. -/
def needsContact (today priorityDays normalDays : Int) (p : Person) : Bool :=
  (p.priority_level == "high" &&
    (match p.last_contact_date with
     | none => true
     | some d => decide (d < today - priorityDays))) ||
  (p.priority_level == "normal" &&
    (match p.last_contact_date with
     | none => true
     | some d => decide (d < today - normalDays)))

/-- `ORDER BY priority_level DESC, last_contact_date ASC NULLS FIRST`. -/
def personLE (a b : Person) : Bool :=
  if a.priority_level = b.priority_level then
    match a.last_contact_date, b.last_contact_date with
    | none, _ => true
    | some _, none => false
    | some x, some y => decide (x ≤ y)
  else textLt b.priority_level a.priority_level

/-- `personLE` as a relation, for the sort. -/
def PersonOrd (a b : Person) : Prop :=
  personLE a b = true

instance : DecidableRel PersonOrd :=
  fun a b => instDecidableEqBool (personLE a b) true

/-- `getPeopleNeedingContact(priorityDays, normalDays)`. -/
def getPeopleNeedingContact (today priorityDays normalDays : Int)
    (people : List Person) : List Person :=
  (people.filter (needsContact today priorityDays normalDays)).insertionSort PersonOrd

/-- The timing label passed to `formatEventReminder` for each milestone. -/
def milestoneTiming : Milestone → String
  | .w1 => "1 week"
  | .d1 => "1 day"
  | .dayof => "today"

/-- The email subject used for each milestone of `checkEventReminders`. -/
def milestoneSubject : Milestone → String
  | .w1 => "Event Reminder (1 Week)"
  | .d1 => "Event Reminder (Tomorrow!)"
  | .dayof => "Event Reminder (TODAY!)"

/-- `formatEventReminder`: person name/relationship, description, date and
timing label, event type.  Day numbers stand in for the ISO date text. -/
def formatEventReminder (e : Event) (timing : String) : String :=
  "Reminder: " ++ e.event_description ++ "\n\n" ++
    "Who: " ++ e.name ++ " (" ++ e.relationship ++ ")\n" ++
    "When: " ++ toString (e.event_date.getD 0) ++ " (" ++ timing ++ ")\n" ++
    "Type: " ++ e.event_type ++ "\n\n" ++
    "Consider reaching out to show your support!"

/-- The support-tip switch of `formatSituationReminder`: phase for `breakup`
splits at 14 elapsed days, for `new_job` at 30; the other known types have a
single fixed tip, and an unknown type keeps the empty tip. -/
def supportTip (daysSinceStart : Int) (situationType : String) : String :=
  if situationType = "breakup" then
    if daysSinceStart < 14 then
      "Early days - just listen and be present. Avoid giving advice unless asked."
    else "Check in on how they are doing. Invite them to do something fun."
  else if situationType = "sick_family" then
    "Ask specific questions about the family member and offer concrete help."
  else if situationType = "wedding_planning" then
    "Be excited for them! Ask how planning is going. Offer to help if you can."
  else if situationType = "new_job" then
    if daysSinceStart < 30 then
      "Ask how the first few weeks are going. Be encouraging."
    else "Check in on how they are settling in."
  else if situationType = "tough_time" then
    "Reach out with a simple thinking-of-you message. Offer to chat or hang out."
  else ""

/-- `formatSituationReminder`: name, description, severity, elapsed days and
the type/phase support tip. -/
def formatSituationReminder (now : Int) (s : Situation) : String :=
  s.name ++ " needs your support\n\n" ++
    "Situation: " ++ s.situation_description ++ "\n" ++
    "Severity: " ++ s.severity ++ "\n" ++
    "Duration: " ++ toString (getDaysSince now s.started_at) ++ " days\n\n" ++
    supportTip (getDaysSince now s.started_at) s.situation_type ++ "\n\n" ++
    "Consider reaching out today!"

/-- One bullet line of `formatLastContactReminder`. -/
def lastContactLine (p : Person) : String :=
  "- " ++ p.name ++ " (" ++ p.relationship ++ ") - " ++
    (match p.last_contact_date with
     | some d => "Last contact: " ++ toString d
     | none => "No contact recorded yet")

/-- `formatLastContactReminder`: the grouped list for one priority tier plus
the closing call to action. -/
def formatLastContactReminder (people : List Person) (priority : String) : String :=
  let threshold := if priority = "high" then "2 weeks" else "4 weeks"
  "You have not talked to these " ++
    (if priority = "high" then "close " else "") ++
    "friends in over " ++ threshold ++ ":\n\n" ++
    String.join (people.map fun p => lastContactLine p ++ "\n") ++
    "\nConsider reaching out to catch up!"

/-- Outcome oracles for one evaluator→dispatch pipeline: `deliveryOk n` is
the outcome of its n-th `sendgrid.send` attempt, `storeOk n` the outcome of
its n-th entity-store write.  The three pipelines run as independent
promises and are given independent oracles. -/
structure DeliveryCtx where
  deliveryOk : Nat → Bool
  storeOk : Nat → Bool

/-- The state threaded through one pipeline: the entity table the pipeline
may write (`friend_events`, `friend_situations` or `people`), the
`reminder_log` rows it has appended, the trace of delivery outcomes of its
send attempts, and its store-write counter. -/
structure PipeSt (α : Type) where
  entities : List α
  rows : List LogRow
  sends : List Bool
  writes : Nat
deriving DecidableEq

/-- `sendEmailReminder(subject, message)`: the entire body is inside a
try/catch whose handler only logs, and a missing API key also just returns,
so the caller never observes a delivery failure.  Modelled as recording the
outcome of the attempt and returning normally. -/
def sendEmailReminder {α : Type} (ctx : DeliveryCtx) (st : PipeSt α) : PipeSt α :=
  { st with sends := st.sends ++ [ctx.deliveryOk st.sends.length] }

/-- `logReminder(...)`: inserts one `reminder_log` row; a failing insert
raises, which the `await` in the caller rethrows (modelled as `.error`
carrying the state at the point of the throw). -/
def logReminder {α : Type} (ctx : DeliveryCtx) (row : LogRow) (st : PipeSt α) :
    Except (PipeSt α) (PipeSt α) :=
  if ctx.storeOk st.writes then
    .ok { st with writes := st.writes + 1, rows := st.rows ++ [row] }
  else
    .error { st with writes := st.writes + 1 }

/-- The column update of `markEventReminderSent`: set the milestone flag of
the row to TRUE. -/
def setFlag (m : Milestone) (e : Event) : Event :=
  match m with
  | .w1 => { e with reminder_sent_1week := true }
  | .d1 => { e with reminder_sent_1day := true }
  | .dayof => { e with reminder_sent_dayof := true }

/-- The milestone flag column selected by `markEventReminderSent`. -/
def flagOf (m : Milestone) (e : Event) : Bool :=
  match m with
  | .w1 => e.reminder_sent_1week
  | .d1 => e.reminder_sent_1day
  | .dayof => e.reminder_sent_dayof

/-- The store effect of `markEventReminderSent(eventId, milestone)`:
`UPDATE friend_events SET <flag> = TRUE WHERE id = eventId`. -/
def markEventFlag (events : List Event) (eventId : Nat) (m : Milestone) :
    List Event :=
  events.map fun e => if e.id = eventId then setFlag m e else e

/-- `markEventReminderSent(eventId, milestone)` as a fallible store write. -/
def markEventReminderSent (ctx : DeliveryCtx) (eventId : Nat) (m : Milestone)
    (st : PipeSt Event) : Except (PipeSt Event) (PipeSt Event) :=
  if ctx.storeOk st.writes then
    .ok { st with writes := st.writes + 1,
                  entities := markEventFlag st.entities eventId m }
  else
    .error { st with writes := st.writes + 1 }

/-- Pointwise one-way-latch order between two versions of an event row:
every milestone flag that is true stays true. -/
def flagsLe (e e' : Event) : Prop :=
  (e.reminder_sent_1week = true → e'.reminder_sent_1week = true) ∧
  (e.reminder_sent_1day = true → e'.reminder_sent_1day = true) ∧
  (e.reminder_sent_dayof = true → e'.reminder_sent_dayof = true)

/-- All rows of the events table with the given id carry the milestone flag:
the post-state of `markEventReminderSent(eventId, m)`. -/
def FlagSet (eid : Nat) (m : Milestone) (l : List Event) : Prop :=
  ∀ e ∈ l, e.id = eid → flagOf m e = true

/-- All rows of the situations table with the given id have
`last_reminder_sent = now`: the post-state of
`updateSituationReminderSent(situationId)`. -/
def LastSentSet (sid : Nat) (now : Int) (l : List Situation) : Prop :=
  ∀ s ∈ l, s.id = sid → s.last_reminder_sent = some now

/-- The store effect of `updateSituationReminderSent(situationId)`:
`UPDATE friend_situations SET last_reminder_sent = NOW() WHERE id = $1`. -/
def setSituationLastSent (sits : List Situation) (situationId : Nat) (now : Int) :
    List Situation :=
  sits.map fun s =>
    if s.id = situationId then { s with last_reminder_sent := some now } else s

/-- `updateSituationReminderSent(situationId)` as a fallible store write. -/
def updateSituationReminderSent (ctx : DeliveryCtx) (now : Int)
    (situationId : Nat) (st : PipeSt Situation) :
    Except (PipeSt Situation) (PipeSt Situation) :=
  if ctx.storeOk st.writes then
    .ok { st with writes := st.writes + 1,
                  entities := setSituationLastSent st.entities situationId now }
  else
    .error { st with writes := st.writes + 1 }

/-- The `reminder_log` row written for an event milestone:
`logReminder('event', event.person_id, event.id, null, message)`. -/
def eventLogRow (e : Event) (m : Milestone) : LogRow :=
  { reminder_type := "event", person_id := e.person_id,
    related_event_id := some e.id, related_situation_id := none,
    message_sent := formatEventReminder e (milestoneTiming m) }

/-- The dispatch of one due event milestone, in source order: send (never
throws), append the log row, flip the latch. -/
def dispatchEventMilestone (ctx : DeliveryCtx) (e : Event) (m : Milestone)
    (st : PipeSt Event) : Except (PipeSt Event) (PipeSt Event) :=
  let st1 := sendEmailReminder ctx st
  match logReminder ctx (eventLogRow e m) st1 with
  | .error st2 => .error st2
  | .ok st2 => markEventReminderSent ctx e.id m st2

/-- Dispatch of the due milestones of one event (at most one can be due in a
tick); a store throw propagates. -/
def dispatchEventMilestones (ctx : DeliveryCtx) (e : Event) :
    List Milestone → PipeSt Event → Except (PipeSt Event) (PipeSt Event)
  | [], st => .ok st
  | m :: ms, st =>
      match dispatchEventMilestone ctx e m st with
      | .ok st' => dispatchEventMilestones ctx e ms st'
      | .error st' => .error st'

/-- The `for (const event of events)` loop of `checkEventReminders`: a store
throw inside the loop body rethrows out of the whole loop, so the remaining
events of the snapshot are not processed (`true` marks the rejection). -/
def eventLoop (ctx : DeliveryCtx) (now : Int) :
    List Event → PipeSt Event → PipeSt Event × Bool
  | [], st => (st, false)
  | e :: rest, st =>
      match dispatchEventMilestones ctx e (eventDue now e) st with
      | .ok st' => eventLoop ctx now rest st'
      | .error st' => (st', true)

/-- `checkEventReminders()`: query the 14-day window snapshot, then run the
dispatch loop over it. -/
def checkEventReminders (ctx : DeliveryCtx) (now : Int) (events : List Event) :
    PipeSt Event × Bool :=
  eventLoop ctx now (getUpcomingEvents now 14 events)
    { entities := events, rows := [], sends := [], writes := 0 }

/-- The `reminder_log` row written for a situation reminder:
`logReminder('situation', situation.person_id, null, situation.id, message)`. -/
def situationLogRow (now : Int) (s : Situation) : LogRow :=
  { reminder_type := "situation", person_id := s.person_id,
    related_event_id := none, related_situation_id := some s.id,
    message_sent := formatSituationReminder now s }

/-- The dispatch of one due situation reminder, in source order: send (never
throws), append the log row, advance `last_reminder_sent`. -/
def dispatchSituation (ctx : DeliveryCtx) (now : Int) (s : Situation)
    (st : PipeSt Situation) : Except (PipeSt Situation) (PipeSt Situation) :=
  let st1 := sendEmailReminder ctx st
  match logReminder ctx (situationLogRow now s) st1 with
  | .error st2 => .error st2
  | .ok st2 => updateSituationReminderSent ctx now s.id st2

/-- The `for (const situation of situations)` loop of
`checkSituationReminders`; a store throw rethrows out of the loop. -/
def situationLoop (ctx : DeliveryCtx) (now : Int) :
    List Situation → PipeSt Situation → PipeSt Situation × Bool
  | [], st => (st, false)
  | s :: rest, st =>
      if situationDue now s then
        match dispatchSituation ctx now s st with
        | .ok st' => situationLoop ctx now rest st'
        | .error st' => (st', true)
      else situationLoop ctx now rest st

/-- `checkSituationReminders()`. -/
def checkSituationReminders (ctx : DeliveryCtx) (now : Int)
    (sits : List Situation) : PipeSt Situation × Bool :=
  situationLoop ctx now (getActiveSituations sits)
    { entities := sits, rows := [], sends := [], writes := 0 }

/-- The `reminder_log` row written for one stale person:
`logReminder('last_contact', person.id, null, null, message)`. -/
def contactLogRow (p : Person) (message : String) : LogRow :=
  { reminder_type := "last_contact", person_id := p.id,
    related_event_id := none, related_situation_id := none,
    message_sent := message }

/-- The `for (const person of ...)` log loop of one priority group in
`checkLastContactReminders`; a store throw rethrows out of the loop. -/
def contactLoop (ctx : DeliveryCtx) (message : String) :
    List Person → PipeSt Person → PipeSt Person × Bool
  | [], st => (st, false)
  | p :: rest, st =>
      match logReminder ctx (contactLogRow p message) st with
      | .ok st' => contactLoop ctx message rest st'
      | .error st' => (st', true)

/-- One priority tier of `checkLastContactReminders`: when the tier is
non-empty, send one grouped email (never throws) and append one log row per
person of the tier. -/
def contactGroupRun (ctx : DeliveryCtx) (priority : String)
    (group : List Person) (st : PipeSt Person) : PipeSt Person × Bool :=
  if group.isEmpty then (st, false)
  else
    contactLoop ctx (formatLastContactReminder group priority) group
      (sendEmailReminder ctx st)

/-- `checkLastContactReminders()`: select the stale people with thresholds
14/28, split by priority tier, and run the high tier then the normal tier;
a store throw in the high tier rejects the whole function, skipping the
normal tier.  No `people` row is ever written. -/
def checkLastContactReminders (ctx : DeliveryCtx) (now : Int)
    (people : List Person) : PipeSt Person × Bool :=
  let selected := getPeopleNeedingContact now 14 28 people
  let st0 : PipeSt Person :=
    { entities := people, rows := [], sends := [], writes := 0 }
  if selected.isEmpty then (st0, false)
  else
    let highPriority := selected.filter fun p => p.priority_level == "high"
    let normalPriority := selected.filter fun p => p.priority_level == "normal"
    let r1 := contactGroupRun ctx "high" highPriority st0
    if r1.2 then (r1.1, true)
    else contactGroupRun ctx "normal" normalPriority r1.1

/-- The observable result of one tick of `checkAndSendFriendReminders`. -/
structure TickResult where
  people : List Person
  events : List Event
  situations : List Situation
  eventRows : List LogRow
  situationRows : List LogRow
  contactRows : List LogRow
  eventSends : List Bool
  situationSends : List Bool
  contactSends : List Bool
  eventAborted : Bool
  situationAborted : Bool
  contactAborted : Bool

/-- The full `reminder_log` after a tick: the previous rows plus the rows
appended by the three pipelines (one linearization of their interleaving). -/
def TickResult.reminderLog (prev : List LogRow) (r : TickResult) : List LogRow :=
  prev ++ r.eventRows ++ r.situationRows ++ r.contactRows

/-- `checkAndSendFriendReminders()`: `Promise.all` starts the three
pipelines; they share no mutable entity family (events, situations and
people are disjoint and `reminder_log` is append-only), a rejected promise
does not cancel the others, and the surrounding try/catch only logs the
first rejection.  Modelled as the three pipelines running on their slices of
the snapshot, each with its own oracles. -/
def checkAndSendFriendReminders (evCtx sitCtx lcCtx : DeliveryCtx) (now : Int)
    (people : List Person) (events : List Event) (sits : List Situation) :
    TickResult :=
  let (ev, evAborted) := checkEventReminders evCtx now events
  let (sit, sitAborted) := checkSituationReminders sitCtx now sits
  let (lc, lcAborted) := checkLastContactReminders lcCtx now people
  { people := lc.entities, events := ev.entities, situations := sit.entities,
    eventRows := ev.rows, situationRows := sit.rows, contactRows := lc.rows,
    eventSends := ev.sends, situationSends := sit.sends,
    contactSends := lc.sends,
    eventAborted := evAborted, situationAborted := sitAborted,
    contactAborted := lcAborted }

/-! ### Concrete fixtures used by witnesses and counterexamples -/

/-- A birthday event seven days after day 100, no milestone sent yet. -/
def evA : Event :=
  { id := 1, person_id := 1, event_type := "birthday",
    event_description := "bday A", event_date := some 107,
    is_recurring := false, reminder_sent_1week := false,
    reminder_sent_1day := false, reminder_sent_dayof := false,
    name := "A", relationship := "friend" }

/-- A second due event, same date, different row. -/
def evB : Event :=
  { evA with id := 2, person_id := 2, event_description := "bday B", name := "B" }

/-- Oracles: every delivery and every store write succeeds. -/
def ctxAllOk : DeliveryCtx :=
  { deliveryOk := fun _ => true, storeOk := fun _ => true }

/-- Oracles: every delivery attempt fails (and is swallowed); the store is
healthy. -/
def ctxNoDelivery : DeliveryCtx :=
  { deliveryOk := fun _ => false, storeOk := fun _ => true }

/-- Oracles: deliveries succeed but the first store write of the pipeline
throws. -/
def ctxFirstWriteFails : DeliveryCtx :=
  { deliveryOk := fun _ => true, storeOk := fun n => decide (n ≠ 0) }

/-- An active high-severity situation, started at day 90, never reminded. -/
def sitHigh : Situation :=
  { id := 1, person_id := 1, situation_type := "breakup",
    situation_description := "hard breakup", severity := "high",
    status := "active", started_at := 90, last_reminder_sent := none,
    name := "A", relationship := "friend" }

/-- An active medium-severity situation on another row. -/
def sitMedium : Situation :=
  { sitHigh with id := 2, severity := "medium", situation_type := "wedding_planning", situation_description := "wedding planning" }

/-- An active low-severity situation on a third row. -/
def sitLow : Situation :=
  { sitHigh with id := 3, severity := "low", situation_type := "tough_time", situation_description := "rough patch" }

/-- An active situation whose severity text is outside the documented
values (the column is unconstrained TEXT). -/
def sitUnknown : Situation :=
  { sitHigh with id := 4, severity := "urgent" }

/-- A high-priority person last contacted 15 days before day 100. -/
def perHigh : Person :=
  { id := 1, name := "A", relationship := "friend",
    priority_level := "high", last_contact_date := some 85 }

/-- A normal-priority person with the same last contact date. -/
def perNormal : Person :=
  { perHigh with id := 2, name := "B", priority_level := "normal" }

/-! ### Helper lemmas -/

/-- Whatever the store outcomes, the dispatch of one situation appends at
most the row `situationLogRow now s` to the log. -/
theorem dispatchSituation_rows (ctx : DeliveryCtx) (now : Int) (s : Situation)
    (st r : PipeSt Situation)
    (h : dispatchSituation ctx now s st = .ok r ∨
      dispatchSituation ctx now s st = .error r) :
    r.rows = st.rows ∨ r.rows = st.rows ++ [situationLogRow now s] := by
  simp only [dispatchSituation, sendEmailReminder, logReminder,
    updateSituationReminderSent] at h
  by_cases h1 : ctx.storeOk st.writes = true <;>
    by_cases h2 : ctx.storeOk (st.writes + 1) = true <;>
      rcases h with h | h <;> simp_all <;> rw [← h] <;> simp

/-- Every `reminder_log` row appended by the situation loop belongs to a due
situation of the processed snapshot and references its id. -/
theorem situationLoop_rows (ctx : DeliveryCtx) (now : Int) :
    ∀ (l : List Situation) (st : PipeSt Situation) (row : LogRow),
      row ∈ (situationLoop ctx now l st).1.rows →
      row ∈ st.rows ∨
        ∃ s ∈ l, situationDue now s = true ∧
          row.related_situation_id = some s.id
  | [], st, row => by
      intro h
      exact Or.inl h
  | s :: rest, st, row => by
      intro h
      by_cases hdue : situationDue now s = true
      · simp only [situationLoop] at h
        rw [if_pos hdue] at h
        rcases hok : dispatchSituation ctx now s st with st' | st'
        · -- the dispatch threw: the loop stops, rows are those of `st'`
          rw [hok] at h
          dsimp only at h
          have hsub := dispatchSituation_rows ctx now s st st' (Or.inr hok)
          rcases hsub with hs | hs <;> rw [hs] at h
          · exact Or.inl h
          · rcases List.mem_append.mp h with h' | h'
            · exact Or.inl h'
            · refine Or.inr ⟨s, List.mem_cons_self _ _, hdue, ?_⟩
              simp only [List.mem_singleton] at h'
              rw [h']
              rfl
        · rw [hok] at h
          dsimp only at h
          have hsub := dispatchSituation_rows ctx now s st st' (Or.inl hok)
          rcases situationLoop_rows ctx now rest st' row h with h' | ⟨s', hs', hd', hr'⟩
          · rcases hsub with hs | hs <;> rw [hs] at h'
            · exact Or.inl h'
            · rcases List.mem_append.mp h' with h'' | h''
              · exact Or.inl h''
              · refine Or.inr ⟨s, List.mem_cons_self _ _, hdue, ?_⟩
                simp only [List.mem_singleton] at h''
                rw [h'']
                rfl
          · exact Or.inr ⟨s', List.mem_cons_of_mem _ hs', hd', hr'⟩
      · simp only [situationLoop] at h
        rw [if_neg hdue] at h
        rcases situationLoop_rows ctx now rest st row h with h' | ⟨s', hs', hd', hr'⟩
        · exact Or.inl h'
        · exact Or.inr ⟨s', List.mem_cons_of_mem _ hs', hd', hr'⟩

/-- Rows of `checkSituationReminders` all come from due situations of the
active snapshot. -/
theorem situationRows_from_due (ctx : DeliveryCtx) (now : Int)
    (sits : List Situation) (row : LogRow)
    (h : row ∈ (checkSituationReminders ctx now sits).1.rows) :
    ∃ s ∈ getActiveSituations sits,
      situationDue now s = true ∧ row.related_situation_id = some s.id := by
  rcases situationLoop_rows ctx now (getActiveSituations sits)
      { entities := sits, rows := [], sends := [], writes := 0 } row h with h' | h'
  · simp at h'
  · exact h'

/-- `charListLt` is irreflexive. -/
theorem charListLt_irrefl : ∀ l : List Char, charListLt l l = false
  | [] => rfl
  | a :: as => by
      simp only [charListLt]
      rw [if_neg (lt_irrefl _), if_neg (lt_irrefl _)]
      exact charListLt_irrefl as

/-- `charListLt` is transitive. -/
theorem charListLt_trans : ∀ a b c : List Char,
    charListLt a b = true → charListLt b c = true → charListLt a c = true
  | [], [], _, h1, _ => by cases h1
  | [], _ :: _, [], _, h2 => by cases h2
  | [], _ :: _, _ :: _, _, _ => rfl
  | _ :: _, [], _, h1, _ => by cases h1
  | _ :: _, _ :: _, [], _, h2 => by cases h2
  | a :: as, b :: bs, c :: cs, h1, h2 => by
      simp only [charListLt] at h1 h2 ⊢
      by_cases hab : a.toNat < b.toNat <;> by_cases hbc : b.toNat < c.toNat
      · rw [if_pos (by omega)]
      · rw [if_neg hbc] at h2
        by_cases hcb : c.toNat < b.toNat
        · rw [if_pos hcb] at h2
          cases h2
        · rw [if_pos (by omega)]
      · rw [if_neg hab] at h1
        by_cases hba : b.toNat < a.toNat
        · rw [if_pos hba] at h1
          cases h1
        · rw [if_pos (by omega)]
      · rw [if_neg hab] at h1
        rw [if_neg hbc] at h2
        by_cases hba : b.toNat < a.toNat
        · rw [if_pos hba] at h1
          cases h1
        · by_cases hcb : c.toNat < b.toNat
          · rw [if_pos hcb] at h2
            cases h2
          · rw [if_neg hba] at h1
            rw [if_neg hcb] at h2
            rw [if_neg (by omega), if_neg (by omega)]
            exact charListLt_trans as bs cs h1 h2

/-- `charListLt` is connex: distinct lists compare one way or the other. -/
theorem charListLt_connex : ∀ a b : List Char, a ≠ b →
    charListLt a b = true ∨ charListLt b a = true
  | [], [], h => absurd rfl h
  | [], _ :: _, _ => Or.inl rfl
  | _ :: _, [], _ => Or.inr rfl
  | a :: as, b :: bs, h => by
      simp only [charListLt]
      rcases Nat.lt_trichotomy a.toNat b.toNat with hlt | heq | hgt
      · left
        rw [if_pos hlt]
      · have hab : a = b := Char.ext (UInt32.ext heq)
        have hne : as ≠ bs := by
          intro hh
          exact h (by rw [hab, hh])
        rw [if_neg (by omega), if_neg (by omega), if_neg (by omega),
          if_neg (by omega)]
        exact charListLt_connex as bs hne
      · right
        rw [if_pos hgt]

/-- `textLt` is irreflexive. -/
theorem textLt_irrefl (s : String) : textLt s s = false :=
  charListLt_irrefl s.data

/-- `textLt` is transitive. -/
theorem textLt_trans (a b c : String) (h1 : textLt a b = true)
    (h2 : textLt b c = true) : textLt a c = true :=
  charListLt_trans a.data b.data c.data h1 h2

/-- `textLt` is connex on distinct strings. -/
theorem textLt_connex (a b : String) (h : a ≠ b) :
    textLt a b = true ∨ textLt b a = true :=
  charListLt_connex a.data b.data fun hd => h (String.ext hd)

/-- The comparator of `getActiveSituations` is total. -/
theorem situationOrd_total (a b : Situation) :
    SituationOrd a b ∨ SituationOrd b a := by
  by_cases h : a.severity = b.severity
  · simp only [SituationOrd, situationLE, if_pos h, if_pos h.symm,
      decide_eq_true_eq]
    exact le_total _ _
  · have h' : b.severity ≠ a.severity := fun hh => h hh.symm
    simp only [SituationOrd, situationLE, if_neg h, if_neg h']
    exact textLt_connex b.severity a.severity h'

/-- The comparator of `getActiveSituations` is transitive. -/
theorem situationOrd_trans (a b c : Situation) (hab : SituationOrd a b)
    (hbc : SituationOrd b c) : SituationOrd a c := by
  simp only [SituationOrd, situationLE] at hab hbc ⊢
  by_cases h1 : a.severity = b.severity <;> by_cases h2 : b.severity = c.severity
  · rw [if_pos h1] at hab
    rw [if_pos h2] at hbc
    rw [if_pos (h1.trans h2)]
    simp only [decide_eq_true_eq] at *
    omega
  · rw [if_neg h2] at hbc
    rw [if_neg (by rw [h1]; exact h2)]
    rw [h1]
    exact hbc
  · rw [if_neg h1] at hab
    rw [if_neg fun hh => h1 (hh.trans h2.symm)]
    rw [← h2]
    exact hab
  · rw [if_neg h1] at hab
    rw [if_neg h2] at hbc
    have hca := textLt_trans _ _ _ hbc hab
    have hac : a.severity ≠ c.severity := by
      intro hh
      rw [hh] at hca
      rw [textLt_irrefl] at hca
      cases hca
    rw [if_neg hac]
    exact hca

/-! ### C2: event milestone decision -/

/-- **C2**: for an event with a non-null exact date, the Event-Reminder
Evaluator emits `1week` exactly when `daysUntil = 7` and `sent_1week` is
false, `1day` exactly when `daysUntil = 1` and `sent_1day` is false, and
`dayof` exactly when `daysUntil = 0` and `sent_dayof` is false; an event at
`today+7` with `sent_1week = false` yields exactly the one-element due list
`[1week]`, so no `1day`/`dayof` notification in that tick. -/
theorem c2_event_milestones :
    (∀ (now : Int) (e : Event) (d : Int), e.event_date = some d →
      ((Milestone.w1 ∈ eventDue now e ↔ d - now = 7 ∧ e.reminder_sent_1week = false) ∧
       (Milestone.d1 ∈ eventDue now e ↔ d - now = 1 ∧ e.reminder_sent_1day = false) ∧
       (Milestone.dayof ∈ eventDue now e ↔ d - now = 0 ∧ e.reminder_sent_dayof = false))) ∧
    (∀ (now : Int) (e : Event) (d : Int), e.event_date = some d →
      d - now = 7 → e.reminder_sent_1week = false →
      eventDue now e = [Milestone.w1]) := by
  constructor
  · intro now e d h
    refine ⟨?_, ?_, ?_⟩ <;>
      · simp only [eventDue, h, getDaysUntil]
        split_ifs <;> simp_all
  · intro now e d h h7 hflag
    simp only [eventDue, h, getDaysUntil, h7, hflag]
    norm_num

/-- Witness for C2 at the concrete event `evA` (date `107`, today `100`). -/
theorem c2_event_milestones_witness :
    eventDue 100 evA = [Milestone.w1] :=
  c2_event_milestones.2 100 evA 107 rfl (by decide) rfl

/-! ### C3: situation cadence -/

/-- **C3**: for an active situation, the cadence table is `low → 14`,
`medium → 7`, `high → 1` while elapsed days since start are at most 14 and
`7` afterwards; `daysSinceLastReminder` is the whole-day difference since
`last_reminder_sent` and the sentinel `999` when never sent, which
guarantees immediate eligibility for every known severity; and the reminder
is due iff `daysSinceLastReminder ≥ reminderInterval`. -/
theorem c3_situation_cadence :
    ∀ (now : Int) (s : Situation), s.status = "active" →
      ((s.severity = "low" → reminderIntervalOf now s = some 14) ∧
       (s.severity = "medium" → reminderIntervalOf now s = some 7) ∧
       (s.severity = "high" →
         reminderIntervalOf now s =
           some (if now - s.started_at ≤ 14 then 1 else 7)) ∧
       (s.last_reminder_sent = none → daysSinceLastReminder now s = 999) ∧
       (∀ t : Int, s.last_reminder_sent = some t →
         daysSinceLastReminder now s = now - t) ∧
       (∀ i : Int, reminderIntervalOf now s = some i →
         (situationDue now s = true ↔ daysSinceLastReminder now s ≥ i)) ∧
       (s.last_reminder_sent = none →
         (s.severity = "high" ∨ s.severity = "medium" ∨ s.severity = "low") →
         situationDue now s = true)) := by
  intro now s _
  refine ⟨?_, ?_, ?_, ?_, ?_, ?_, ?_⟩
  · intro h
    simp [reminderIntervalOf, h]
  · intro h
    simp [reminderIntervalOf, h]
  · intro h
    simp [reminderIntervalOf, h, getDaysSince]
  · intro h
    simp [daysSinceLastReminder, h]
  · intro t h
    simp [daysSinceLastReminder, h, getDaysSince]
  · intro i h
    simp [situationDue, h]
  · intro hnone hsev
    have hd : daysSinceLastReminder now s = 999 := by
      simp [daysSinceLastReminder, hnone]
    rcases hsev with h | h | h <;>
      · simp only [situationDue, reminderIntervalOf, h, hd]
        split_ifs <;> simp_all

/-- Witness for C3 at the concrete situation `sitHigh` on day 100: severity
`high`, started 10 days ago, never reminded, hence interval 1 and due. -/
theorem c3_situation_cadence_witness :
    reminderIntervalOf 100 sitHigh = some (if (100 : Int) - 90 ≤ 14 then 1 else 7) ∧
    daysSinceLastReminder 100 sitHigh = 999 ∧
    situationDue 100 sitHigh = true := by
  have h := c3_situation_cadence 100 sitHigh rfl
  exact ⟨h.2.2.1 rfl, h.2.2.2.1 rfl, h.2.2.2.2.2.2 rfl (Or.inl rfl)⟩

/-! ### C10: unconstrained severity text -/

/-- **C10**: for an active situation whose severity is none of `high`,
`medium`, `low`, the switch assigns no reminder interval, the due comparison
is false, and the pipeline never appends a log row for it nor advances its
`last_reminder_sent`: every appended row references a situation that was due,
and only due situations are updated. -/
theorem c10_unknown_severity :
    ∀ (now : Int) (s : Situation),
      s.severity ≠ "high" → s.severity ≠ "medium" → s.severity ≠ "low" →
      (reminderIntervalOf now s = none ∧
       situationDue now s = false ∧
       (∀ (ctx : DeliveryCtx) (sits : List Situation) (row : LogRow),
         row ∈ (checkSituationReminders ctx now sits).1.rows →
         ∃ s' ∈ getActiveSituations sits,
           situationDue now s' = true ∧
           row.related_situation_id = some s'.id)) := by
  intro now s h1 h2 h3
  refine ⟨?_, ?_, ?_⟩
  · simp [reminderIntervalOf, h1, h2, h3]
  · simp [situationDue, reminderIntervalOf, h1, h2, h3]
  · intro ctx sits row hrow
    exact situationRows_from_due ctx now sits row hrow

/-! ### C4: processing order of active situations -/

/-- **C4 counterexample**: with one active high-severity and one active
medium-severity situation, `getActiveSituations` (`ORDER BY fs.severity
DESC` on a TEXT column) processes the medium one first, not high before
medium as the claim states: descending text order puts `"medium"` above
`"low"` above `"high"`. -/
theorem c4_counterexample :
    (getActiveSituations [sitHigh, sitMedium]).map (fun s => s.severity) =
        ["medium", "high"] ∧
      ("medium" : String) ≠ "high" := by
  constructor
  · decide
  · decide

/-- **C4 amended**: in one tick the active situations are processed in
descending lexicographic order of the severity text — medium before low
before high — with start date ascending within equal severity; the
processed list is a permutation of the active rows, so the ordering does
not change which situations are due. -/
theorem c4_amended (sits : List Situation) :
    List.Sorted SituationOrd (getActiveSituations sits) ∧
    (∀ a b : Situation, a.severity = "medium" → b.severity = "low" →
      SituationOrd a b) ∧
    (∀ a b : Situation, a.severity = "low" → b.severity = "high" →
      SituationOrd a b) ∧
    (∀ s : Situation,
      s ∈ getActiveSituations sits ↔ s ∈ sits ∧ s.status = "active") ∧
    (∀ now : Int,
      ((getActiveSituations sits).filter (situationDue now)).Perm
        ((sits.filter fun s => s.status == "active").filter
          (situationDue now))) := by
  refine ⟨?_, ?_, ?_, ?_, ?_⟩
  · letI : IsTotal Situation SituationOrd := ⟨situationOrd_total⟩
    letI : IsTrans Situation SituationOrd := ⟨situationOrd_trans⟩
    exact List.sorted_insertionSort SituationOrd _
  · intro a b ha hb
    simp only [SituationOrd, situationLE, ha, hb]
    rw [if_neg (by decide)]
    decide
  · intro a b ha hb
    simp only [SituationOrd, situationLE, ha, hb]
    rw [if_neg (by decide)]
    decide
  · intro s
    simp only [getActiveSituations, List.mem_insertionSort, List.mem_filter,
      beq_iff_eq]
  · intro now
    exact (List.perm_insertionSort SituationOrd _).filter _

/-- Witness for C4 amended: the three concrete severities order as medium,
then low, then high. -/
theorem c4_amended_witness :
    SituationOrd sitMedium sitLow ∧ SituationOrd sitLow sitHigh :=
  ⟨(c4_amended []).2.1 sitMedium sitLow rfl rfl,
    (c4_amended []).2.2.1 sitLow sitHigh rfl rfl⟩

/-! ### C6: contact staleness selection -/

/-- **C6**: the Contact-Staleness Evaluator selects exactly the persons
whose `last_contact_date` is null or strictly older than today minus the
priority-tier threshold (14 days for `high`, 28 for `normal`); in
particular a high-priority person last contacted 15 days ago is selected
while a normal-priority person with the same date is not. -/
theorem c6_staleness_selection :
    (∀ (today : Int) (people : List Person) (p : Person),
      p ∈ getPeopleNeedingContact today 14 28 people ↔
        p ∈ people ∧
          ((p.priority_level = "high" ∧
             (p.last_contact_date = none ∨
               ∃ d, p.last_contact_date = some d ∧ d < today - 14)) ∨
           (p.priority_level = "normal" ∧
             (p.last_contact_date = none ∨
               ∃ d, p.last_contact_date = some d ∧ d < today - 28)))) ∧
    (∀ today : Int,
      needsContact today 14 28
          { perHigh with last_contact_date := some (today - 15) } = true ∧
        needsContact today 14 28
          { perNormal with last_contact_date := some (today - 15) } = false) := by
  constructor
  · intro today people p
    simp only [getPeopleNeedingContact, List.mem_insertionSort,
      List.mem_filter, needsContact, Bool.or_eq_true, Bool.and_eq_true,
      beq_iff_eq]
    rcases hl : p.last_contact_date with _ | d <;>
      simp [hl, decide_eq_true_eq]
  · intro today
    refine ⟨?_, ?_⟩
    · simp [needsContact, perHigh]
    · simp [needsContact, perNormal, perHigh]

/-- Witness for C6: on day 100 the high-priority person last contacted on
day 85 is selected. -/
theorem c6_staleness_selection_witness :
    perHigh ∈ getPeopleNeedingContact 100 14 28 [perHigh, perNormal] :=
  (c6_staleness_selection.1 100 [perHigh, perNormal] perHigh).mpr
    ⟨by decide, Or.inl ⟨rfl, Or.inr ⟨85, rfl, by decide⟩⟩⟩

/-! ### C9: determinism and post-commit exclusion -/

/-- Setting a milestone flag makes that flag true. -/
theorem flagOf_setFlag (m : Milestone) (e : Event) :
    flagOf m (setFlag m e) = true := by
  cases m <;> rfl

/-- An event whose flag for milestone `m` is already true is never due for
`m`. -/
theorem not_mem_eventDue_of_flag (now : Int) (e : Event) (m : Milestone)
    (h : flagOf m e = true) : m ∉ eventDue now e := by
  intro hm
  cases he : e.event_date with
  | none =>
      simp only [eventDue, he] at hm
      cases hm
  | some d =>
      simp only [eventDue, he] at hm
      cases m <;> simp only [flagOf] at h <;> split_ifs at hm <;> simp_all

/-- Every reminder interval the switch assigns is at least one day. -/
theorem reminderIntervalOf_pos (now : Int) (s : Situation) (i : Int)
    (h : reminderIntervalOf now s = some i) : 1 ≤ i := by
  simp only [reminderIntervalOf] at h
  split_ifs at h <;> simp_all <;> omega

/-- **C9**: each evaluator is a pure function of the snapshot and `now`, so
two runs on identical snapshots give identical due-lists; and once a
dispatch commits its state write, re-running on the updated snapshot
excludes that item: a committed event milestone is no longer in the event
due-list, and a situation whose `last_reminder_sent` was just set to `now`
is no longer due. -/
theorem c9_idempotence :
    (∀ (now : Int) (events events' : List Event), events = events' →
      eventDueList now events = eventDueList now events') ∧
    (∀ (now : Int) (sits sits' : List Situation), sits = sits' →
      situationDueList now sits = situationDueList now sits') ∧
    (∀ (now : Int) (events : List Event) (eid : Nat) (m : Milestone),
      (eid, m) ∉ eventDueList now (markEventFlag events eid m)) ∧
    (∀ (now : Int) (sits : List Situation) (sid : Nat) (s' : Situation),
      s' ∈ setSituationLastSent sits sid now → s'.id = sid →
      situationDue now s' = false) := by
  refine ⟨?_, ?_, ?_, ?_⟩
  · intro now a b h
    rw [h]
  · intro now a b h
    rw [h]
  · intro now events eid m hmem
    simp only [eventDueList, List.mem_flatMap, List.mem_map] at hmem
    obtain ⟨e, hin, m', hm', heq⟩ := hmem
    have hid : e.id = eid := congrArg Prod.fst heq
    have hmm : m' = m := congrArg Prod.snd heq
    rw [hmm] at hm'
    simp only [getUpcomingEvents] at hin
    have hin' : e ∈ markEventFlag events eid m :=
      (List.mem_filter.mp ((List.mem_insertionSort EventDateOrd).mp hin)).1
    simp only [markEventFlag, List.mem_map] at hin'
    obtain ⟨e₀, _, he₀⟩ := hin'
    by_cases hcase : e₀.id = eid
    · rw [if_pos hcase] at he₀
      subst he₀
      exact not_mem_eventDue_of_flag now _ m (flagOf_setFlag m e₀) hm'
    · rw [if_neg hcase] at he₀
      subst he₀
      exact hcase hid
  · intro now sits sid s' hmem hid
    simp only [setSituationLastSent, List.mem_map] at hmem
    obtain ⟨s₀, _, hs₀⟩ := hmem
    by_cases hcase : s₀.id = sid
    · rw [if_pos hcase] at hs₀
      subst hs₀
      cases hint : reminderIntervalOf now { s₀ with last_reminder_sent := some now } with
      | none => simp [situationDue, hint]
      | some i =>
          have hp := reminderIntervalOf_pos _ _ _ hint
          simp only [situationDue, hint, daysSinceLastReminder, getDaysSince]
          simp only [decide_eq_false_iff_not]
          omega
    · rw [if_neg hcase] at hs₀
      subst hs₀
      exact absurd hid hcase

/-- Witness for C9: after committing the `1week` flag of event 1 the event
due-list on day 100 no longer contains `(1, 1week)`, and after advancing
`last_reminder_sent` of situation 1 to day 100 that situation is not due. -/
theorem c9_idempotence_witness :
    (1, Milestone.w1) ∉ eventDueList 100 (markEventFlag [evA] 1 Milestone.w1) ∧
    situationDue 100 { sitHigh with last_reminder_sent := some (100 : Int) } = false :=
  ⟨c9_idempotence.2.2.1 100 [evA] 1 Milestone.w1,
    c9_idempotence.2.2.2 100 [sitHigh] 1 _ (by decide) rfl⟩

/-! ### C7: one-way latches -/

/-- `flagsLe` is reflexive, pointwise on a list. -/
theorem forall₂_flagsLe_refl : ∀ l : List Event, List.Forall₂ flagsLe l l
  | [] => List.Forall₂.nil
  | _ :: rest =>
      List.Forall₂.cons ⟨id, id, id⟩ (forall₂_flagsLe_refl rest)

/-- `flagsLe` composes, pointwise on lists. -/
theorem forall₂_flagsLe_trans : ∀ {l1 l2 l3 : List Event},
    List.Forall₂ flagsLe l1 l2 → List.Forall₂ flagsLe l2 l3 →
    List.Forall₂ flagsLe l1 l3
  | [], [], [], _, _ => List.Forall₂.nil
  | _ :: _, _ :: _, _ :: _,
    List.Forall₂.cons h12 t12, List.Forall₂.cons h23 t23 =>
      List.Forall₂.cons
        ⟨fun h => h23.1 (h12.1 h), fun h => h23.2.1 (h12.2.1 h),
          fun h => h23.2.2 (h12.2.2 h)⟩
        (forall₂_flagsLe_trans t12 t23)

/-- Setting one flag to TRUE never lowers a flag. -/
theorem flagsLe_setFlag (m : Milestone) (e : Event) : flagsLe e (setFlag m e) := by
  cases m <;> exact ⟨fun h => by simp [setFlag, h], fun h => by simp [setFlag, h],
    fun h => by simp [setFlag, h]⟩

/-- The `UPDATE` of `markEventReminderSent` is flag-monotone on the table. -/
theorem markEventFlag_flagsLe : ∀ (l : List Event) (eid : Nat) (m : Milestone),
    List.Forall₂ flagsLe l (markEventFlag l eid m)
  | [], _, _ => List.Forall₂.nil
  | e :: rest, eid, m => by
      simp only [markEventFlag, List.map_cons]
      refine List.Forall₂.cons ?_ ?_
      · by_cases h : e.id = eid
        · rw [if_pos h]
          exact flagsLe_setFlag m e
        · rw [if_neg h]
          exact ⟨id, id, id⟩
      · exact markEventFlag_flagsLe rest eid m

/-- One milestone dispatch never lowers a flag in the events table, whether
or not its store writes succeed. -/
theorem dispatchEventMilestone_flagsLe (ctx : DeliveryCtx) (e : Event)
    (m : Milestone) (st r : PipeSt Event)
    (h : dispatchEventMilestone ctx e m st = .ok r ∨
      dispatchEventMilestone ctx e m st = .error r) :
    List.Forall₂ flagsLe st.entities r.entities := by
  simp only [dispatchEventMilestone, sendEmailReminder, logReminder,
    markEventReminderSent] at h
  by_cases h1 : ctx.storeOk st.writes = true <;>
    by_cases h2 : ctx.storeOk (st.writes + 1) = true <;>
      rcases h with h | h <;> simp_all <;> rw [← h] <;>
        first
          | exact markEventFlag_flagsLe _ _ _
          | exact forall₂_flagsLe_refl _

/-- Dispatching a list of milestones never lowers a flag. -/
theorem dispatchEventMilestones_flagsLe (ctx : DeliveryCtx) (e : Event) :
    ∀ (ms : List Milestone) (st r : PipeSt Event),
      dispatchEventMilestones ctx e ms st = .ok r ∨
        dispatchEventMilestones ctx e ms st = .error r →
      List.Forall₂ flagsLe st.entities r.entities
  | [], st, r, h => by
      rcases h with h | h <;> simp only [dispatchEventMilestones] at h
      · cases h
        exact forall₂_flagsLe_refl _
      · cases h
  | m :: ms, st, r, h => by
      rcases h with h | h <;> simp only [dispatchEventMilestones] at h <;>
        rcases hd : dispatchEventMilestone ctx e m st with st' | st' <;>
          rw [hd] at h
      · cases h
      · exact forall₂_flagsLe_trans
          (dispatchEventMilestone_flagsLe ctx e m st st' (Or.inl hd))
          (dispatchEventMilestones_flagsLe ctx e ms st' r (Or.inl h))
      · cases h
        exact dispatchEventMilestone_flagsLe ctx e m st _ (Or.inr hd)
      · exact forall₂_flagsLe_trans
          (dispatchEventMilestone_flagsLe ctx e m st st' (Or.inl hd))
          (dispatchEventMilestones_flagsLe ctx e ms st' r (Or.inr h))

/-- The event loop never lowers a flag in the events table. -/
theorem eventLoop_flagsLe (ctx : DeliveryCtx) (now : Int) :
    ∀ (l : List Event) (st : PipeSt Event),
      List.Forall₂ flagsLe st.entities (eventLoop ctx now l st).1.entities
  | [], st => forall₂_flagsLe_refl _
  | e :: rest, st => by
      simp only [eventLoop]
      rcases hd : dispatchEventMilestones ctx e (eventDue now e) st with st' | st'
      · exact dispatchEventMilestones_flagsLe ctx e _ st st' (Or.inr hd)
      · exact forall₂_flagsLe_trans
          (dispatchEventMilestones_flagsLe ctx e _ st st' (Or.inl hd))
          (eventLoop_flagsLe ctx now rest st')

/-- **C7**: the milestone flags are one-way latches: no operation of a tick
ever turns a flag from true back to false (the events table after a tick is
pointwise flag-monotone over the snapshot), and an event whose three flags
are all true is never re-emitted by the evaluator, whatever its date. -/
theorem c7_latch :
    (∀ (now : Int) (e : Event),
      e.reminder_sent_1week = true → e.reminder_sent_1day = true →
      e.reminder_sent_dayof = true → eventDue now e = []) ∧
    (∀ (evCtx sitCtx lcCtx : DeliveryCtx) (now : Int) (people : List Person)
      (events : List Event) (sits : List Situation),
      List.Forall₂ flagsLe events
        (checkAndSendFriendReminders evCtx sitCtx lcCtx now
          people events sits).events) := by
  constructor
  · intro now e h1 h2 h3
    cases he : e.event_date with
    | none => simp [eventDue, he]
    | some d =>
        simp only [eventDue, he]
        split_ifs <;> simp_all
  · intro evCtx sitCtx lcCtx now people events sits
    exact eventLoop_flagsLe evCtx now
      (getUpcomingEvents now 14 events)
      { entities := events, rows := [], sends := [], writes := 0 }

/-- Witness for C7: an event with all three flags true yields an empty due
list on day 100 even though its date is exactly seven days out. -/
theorem c7_latch_witness :
    eventDue 100 { evA with reminder_sent_1week := true, reminder_sent_1day := true, reminder_sent_dayof := true } = [] :=
  c7_latch.1 100 _ rfl rfl rfl

/-! ### C8: staleness reminders have no latch -/

/-- The contact log loop never touches the `people` table. -/
theorem contactLoop_entities (ctx : DeliveryCtx) (msg : String) :
    ∀ (l : List Person) (st : PipeSt Person),
      (contactLoop ctx msg l st).1.entities = st.entities
  | [], _ => rfl
  | p :: rest, st => by
      simp only [contactLoop, logReminder]
      by_cases h : ctx.storeOk st.writes = true
      · rw [if_pos h]
        exact contactLoop_entities ctx msg rest _
      · rw [if_neg h]

/-- A priority tier run never touches the `people` table. -/
theorem contactGroupRun_entities (ctx : DeliveryCtx) (priority : String)
    (group : List Person) (st : PipeSt Person) :
    (contactGroupRun ctx priority group st).1.entities = st.entities := by
  simp only [contactGroupRun]
  split_ifs
  · rfl
  · exact contactLoop_entities ctx _ group _

/-- The rows of the contact log loop extend the incoming rows. -/
theorem contactLoop_rows_extend (ctx : DeliveryCtx) (msg : String) :
    ∀ (l : List Person) (st : PipeSt Person),
      ∃ t, (contactLoop ctx msg l st).1.rows = st.rows ++ t
  | [], st => ⟨[], by simp [contactLoop]⟩
  | p :: rest, st => by
      simp only [contactLoop, logReminder]
      by_cases h : ctx.storeOk st.writes = true
      · rw [if_pos h]
        obtain ⟨t, ht⟩ := contactLoop_rows_extend ctx msg rest
          { entities := st.entities, rows := st.rows ++ [contactLogRow p msg], sends := st.sends, writes := st.writes + 1 }
        exact ⟨contactLogRow p msg :: t, by simp [ht]⟩
      · rw [if_neg h]
        exact ⟨[], by simp⟩

/-- With a healthy store, the contact log loop appends exactly one row per
person and never rejects. -/
theorem contactLoop_closed (ctx : DeliveryCtx)
    (hok : ∀ n, ctx.storeOk n = true) (msg : String) :
    ∀ (l : List Person) (st : PipeSt Person),
      contactLoop ctx msg l st =
        ({ entities := st.entities,
           rows := st.rows ++ l.map (fun p => contactLogRow p msg),
           sends := st.sends, writes := st.writes + l.length }, false)
  | [], st => by simp [contactLoop]
  | p :: rest, st => by
      simp only [contactLoop, logReminder]
      rw [if_pos (hok st.writes)]
      dsimp only
      rw [contactLoop_closed ctx hok msg rest _]
      simp only [Prod.mk.injEq, PipeSt.mk.injEq, List.append_assoc,
        List.singleton_append, List.map_cons, List.length_cons]
      refine ⟨⟨trivial, trivial, trivial, ?_⟩, trivial⟩
      omega

/-- With a healthy store, a priority tier run never rejects. -/
theorem contactGroupRun_ok (ctx : DeliveryCtx)
    (hok : ∀ n, ctx.storeOk n = true) (priority : String)
    (group : List Person) (st : PipeSt Person) :
    (contactGroupRun ctx priority group st).2 = false := by
  simp only [contactGroupRun]
  split_ifs
  · rfl
  · rw [contactLoop_closed ctx hok _ group _]

/-- With a healthy store, every member of a non-empty tier gets a log row. -/
theorem contactGroupRun_mem_rows (ctx : DeliveryCtx)
    (hok : ∀ n, ctx.storeOk n = true) (priority : String)
    (group : List Person) (st : PipeSt Person) (p : Person)
    (hp : p ∈ group) :
    contactLogRow p (formatLastContactReminder group priority) ∈
      (contactGroupRun ctx priority group st).1.rows := by
  simp only [contactGroupRun]
  rw [if_neg (by simp [List.isEmpty_iff]; exact List.ne_nil_of_mem hp)]
  rw [contactLoop_closed ctx hok _ group _]
  simp only [List.mem_append, List.mem_map]
  exact Or.inr ⟨p, hp, rfl⟩

/-- The rows of a priority tier run extend the incoming rows. -/
theorem contactGroupRun_rows_extend (ctx : DeliveryCtx) (priority : String)
    (group : List Person) (st : PipeSt Person) :
    ∃ t, (contactGroupRun ctx priority group st).1.rows = st.rows ++ t := by
  simp only [contactGroupRun]
  split_ifs
  · exact ⟨[], by simp⟩
  · exact contactLoop_rows_extend ctx _ group _

/-- **C8**: dispatching staleness reminders writes only `reminder_log` rows
and leaves every `people` row unchanged — there is no per-person latch — so
the selection on any later snapshot is the same as if the tick had not run,
and a person still selected is logged (notified) again whenever the store
writes succeed. -/
theorem c8_staleness_frame :
    (∀ (ctx : DeliveryCtx) (now : Int) (people : List Person),
      (checkLastContactReminders ctx now people).1.entities = people) ∧
    (∀ (ctx : DeliveryCtx) (now later : Int) (people : List Person),
      getPeopleNeedingContact later 14 28
          ((checkLastContactReminders ctx now people).1.entities) =
        getPeopleNeedingContact later 14 28 people) ∧
    (∀ (ctx : DeliveryCtx) (now : Int) (people : List Person) (p : Person),
      (∀ n, ctx.storeOk n = true) →
      p ∈ getPeopleNeedingContact now 14 28 people →
      ∃ row ∈ (checkLastContactReminders ctx now people).1.rows,
        row.person_id = p.id ∧ row.reminder_type = "last_contact") := by
  have hent : ∀ (ctx : DeliveryCtx) (now : Int) (people : List Person),
      (checkLastContactReminders ctx now people).1.entities = people := by
    intro ctx now people
    simp only [checkLastContactReminders]
    split_ifs <;> simp [contactGroupRun_entities]
  refine ⟨hent, ?_, ?_⟩
  · intro ctx now later people
    rw [hent]
  · intro ctx now people p hok hsel
    have hne : ((getPeopleNeedingContact now 14 28 people).isEmpty) = false := by
      simp [List.isEmpty_iff]
      exact List.ne_nil_of_mem hsel
    have hPrio : p.priority_level = "high" ∨ p.priority_level = "normal" := by
      have hmem := (List.mem_filter.mp
        ((List.mem_insertionSort PersonOrd).mp hsel)).2
      simp only [needsContact, Bool.or_eq_true, Bool.and_eq_true,
        beq_iff_eq] at hmem
      rcases hmem with ⟨h, _⟩ | ⟨h, _⟩
      · exact Or.inl h
      · exact Or.inr h
    simp only [checkLastContactReminders, hne, Bool.false_eq_true, if_false]
    rw [if_neg (by rw [contactGroupRun_ok ctx hok]; simp)]
    rcases hPrio with hp | hp
    · -- the row is appended by the high tier, which the normal tier extends
      have hmemhigh : p ∈ (getPeopleNeedingContact now 14 28 people).filter
          (fun q => q.priority_level == "high") :=
        List.mem_filter.mpr ⟨hsel, by simp [hp]⟩
      obtain ⟨t, ht⟩ := contactGroupRun_rows_extend ctx "normal"
        ((getPeopleNeedingContact now 14 28 people).filter
          (fun q => q.priority_level == "normal"))
        (contactGroupRun ctx "high"
          ((getPeopleNeedingContact now 14 28 people).filter
            (fun q => q.priority_level == "high"))
          { entities := people, rows := [], sends := [], writes := 0 }).1
      refine ⟨contactLogRow p (formatLastContactReminder
        ((getPeopleNeedingContact now 14 28 people).filter
          (fun q => q.priority_level == "high")) "high"), ?_, rfl, rfl⟩
      rw [ht]
      exact List.mem_append_left _
        (contactGroupRun_mem_rows ctx hok "high" _ _ p hmemhigh)
    · have hmemnorm : p ∈ (getPeopleNeedingContact now 14 28 people).filter
          (fun q => q.priority_level == "normal") :=
        List.mem_filter.mpr ⟨hsel, by simp [hp]⟩
      exact ⟨contactLogRow p (formatLastContactReminder
        ((getPeopleNeedingContact now 14 28 people).filter
          (fun q => q.priority_level == "normal")) "normal"),
        contactGroupRun_mem_rows ctx hok "normal" _ _ p hmemnorm, rfl, rfl⟩

/-- Witness for C8: on day 100 the tick leaves the two-person table
unchanged and logs a `last_contact` row for the selected high-priority
person. -/
theorem c8_staleness_frame_witness :
    (checkLastContactReminders ctxAllOk 100 [perHigh, perNormal]).1.entities =
        [perHigh, perNormal] ∧
      ∃ row ∈ (checkLastContactReminders ctxAllOk 100 [perHigh, perNormal]).1.rows,
        row.person_id = perHigh.id ∧ row.reminder_type = "last_contact" :=
  ⟨c8_staleness_frame.1 ctxAllOk 100 [perHigh, perNormal],
    c8_staleness_frame.2.2 ctxAllOk 100 [perHigh, perNormal] perHigh
      (fun _ => rfl) (by decide)⟩

/-! ### C1: state writes versus delivery outcome -/

/-- `setFlag` does not change the row id. -/
theorem setFlag_id (m : Milestone) (e : Event) : (setFlag m e).id = e.id := by
  cases m <;> rfl

/-- After `markEventReminderSent(eid, m)`, every row with id `eid` has the
`m` flag. -/
theorem FlagSet_markEventFlag_self (l : List Event) (eid : Nat) (m : Milestone) :
    FlagSet eid m (markEventFlag l eid m) := by
  intro e' he' hid
  simp only [markEventFlag, List.mem_map] at he'
  obtain ⟨e₀, _, he₀⟩ := he'
  by_cases h : e₀.id = eid
  · rw [if_pos h] at he₀
    rw [← he₀]
    exact flagOf_setFlag m e₀
  · rw [if_neg h] at he₀
    rw [← he₀] at hid
    exact absurd hid h

/-- A true flag survives `setFlag` for any milestone. -/
theorem flagOf_setFlag_mono (m m' : Milestone) (e : Event)
    (h : flagOf m e = true) : flagOf m (setFlag m' e) = true := by
  cases m <;> cases m' <;> simp_all [flagOf, setFlag]

/-- `FlagSet` is preserved by any later `markEventReminderSent`. -/
theorem FlagSet_markEventFlag_mono (l : List Event) (eid : Nat) (m : Milestone)
    (eid' : Nat) (m' : Milestone) (h : FlagSet eid m l) :
    FlagSet eid m (markEventFlag l eid' m') := by
  intro e' he' hid
  simp only [markEventFlag, List.mem_map] at he'
  obtain ⟨e₀, h₀, he₀⟩ := he'
  by_cases hc : e₀.id = eid'
  · rw [if_pos hc] at he₀
    rw [← he₀] at hid
    rw [setFlag_id] at hid
    rw [← he₀]
    exact flagOf_setFlag_mono m m' e₀ (h e₀ h₀ hid)
  · rw [if_neg hc] at he₀
    rw [← he₀] at hid ⊢
    exact h e₀ h₀ hid

/-- With a healthy store, one milestone dispatch is exactly: record the send
attempt, append the log row, flip the latch. -/
theorem dispatchEventMilestone_ok (ctx : DeliveryCtx)
    (hok : ∀ n, ctx.storeOk n = true) (e : Event) (m : Milestone)
    (st : PipeSt Event) :
    dispatchEventMilestone ctx e m st =
      .ok { entities := markEventFlag st.entities e.id m,
            rows := st.rows ++ [eventLogRow e m],
            sends := st.sends ++ [ctx.deliveryOk st.sends.length],
            writes := st.writes + 1 + 1 } := by
  simp only [dispatchEventMilestone, sendEmailReminder, logReminder,
    markEventReminderSent]
  rw [if_pos (hok _)]
  dsimp only
  rw [if_pos (hok _)]

/-- With a healthy store, dispatching a list of milestones of one event
succeeds, only appends rows, preserves committed flags, and commits a log
row plus the latch for each milestone of the list. -/
theorem dispatchEventMilestones_ok (ctx : DeliveryCtx)
    (hok : ∀ n, ctx.storeOk n = true) (e : Event) :
    ∀ (ms : List Milestone) (st : PipeSt Event),
      ∃ r, dispatchEventMilestones ctx e ms st = .ok r ∧
        (∃ t, r.rows = st.rows ++ t) ∧
        (∀ (eid : Nat) (m : Milestone),
          FlagSet eid m st.entities → FlagSet eid m r.entities) ∧
        (∀ m ∈ ms, eventLogRow e m ∈ r.rows ∧ FlagSet e.id m r.entities)
  | [], st =>
      ⟨st, rfl, ⟨[], by simp⟩, fun _ _ h => h, by simp⟩
  | m :: ms, st => by
      obtain ⟨r, hr, ⟨t, ht⟩, hpres, hall⟩ :=
        dispatchEventMilestones_ok ctx hok e ms
          { entities := markEventFlag st.entities e.id m, rows := st.rows ++ [eventLogRow e m], sends := st.sends ++ [ctx.deliveryOk st.sends.length], writes := st.writes + 1 + 1 }
      refine ⟨r, ?_, ⟨eventLogRow e m :: t, by simp [ht]⟩, ?_, ?_⟩
      · simp only [dispatchEventMilestones,
          dispatchEventMilestone_ok ctx hok e m st]
        exact hr
      · intro eid m' h
        exact hpres eid m' (FlagSet_markEventFlag_mono _ _ _ _ _ h)
      · intro m' hm'
        rcases List.mem_cons.mp hm' with hm' | hm'
        · subst hm'
          constructor
          · rw [ht]
            simp
          · exact hpres e.id m' (FlagSet_markEventFlag_self _ _ _)
        · exact hall m' hm'

/-- With a healthy store, the event loop never rejects, only appends rows,
preserves committed flags, and commits the log row and latch of every due
milestone of the snapshot it walks. -/
theorem eventLoop_ok (ctx : DeliveryCtx) (hok : ∀ n, ctx.storeOk n = true)
    (now : Int) :
    ∀ (l : List Event) (st : PipeSt Event),
      (eventLoop ctx now l st).2 = false ∧
      (∃ t, (eventLoop ctx now l st).1.rows = st.rows ++ t) ∧
      (∀ (eid : Nat) (m : Milestone), FlagSet eid m st.entities →
        FlagSet eid m (eventLoop ctx now l st).1.entities) ∧
      (∀ e ∈ l, ∀ m ∈ eventDue now e,
        eventLogRow e m ∈ (eventLoop ctx now l st).1.rows ∧
        FlagSet e.id m (eventLoop ctx now l st).1.entities)
  | [], st => ⟨rfl, ⟨[], by simp [eventLoop]⟩, fun _ _ h => h, by simp⟩
  | e :: rest, st => by
      obtain ⟨r, hr, ⟨t, ht⟩, hpres, hall⟩ :=
        dispatchEventMilestones_ok ctx hok e (eventDue now e) st
      obtain ⟨hab, ⟨t', ht'⟩, hpres', hall'⟩ := eventLoop_ok ctx hok now rest r
      have hloop : eventLoop ctx now (e :: rest) st = eventLoop ctx now rest r := by
        simp only [eventLoop, hr]
      refine ⟨by rw [hloop]; exact hab, ⟨t ++ t', by rw [hloop, ht', ht]; simp⟩,
        ?_, ?_⟩
      · intro eid m h
        rw [hloop]
        exact hpres' eid m (hpres eid m h)
      · intro e' he' m hm
        rcases List.mem_cons.mp he' with he' | he'
        · subst he'
          obtain ⟨hrow, hflag⟩ := hall m hm
          constructor
          · rw [hloop, ht']
            exact List.mem_append_left _ hrow
          · rw [hloop]
            exact hpres' e'.id m hflag
        · rw [hloop]
          exact hall' e' he' m hm

/-- `last_reminder_sent` survives later updates of the same tick: every
update writes the same `now`. -/
theorem LastSentSet_set_mono (l : List Situation) (sid : Nat) (now : Int)
    (sid' : Nat) (h : LastSentSet sid now l) :
    LastSentSet sid now (setSituationLastSent l sid' now) := by
  intro s' hs' hid
  simp only [setSituationLastSent, List.mem_map] at hs'
  obtain ⟨s₀, h₀, hs₀⟩ := hs'
  by_cases hc : s₀.id = sid'
  · rw [if_pos hc] at hs₀
    rw [← hs₀]
  · rw [if_neg hc] at hs₀
    rw [← hs₀] at hid ⊢
    exact h s₀ h₀ hid

/-- After `updateSituationReminderSent(sid)`, every row with id `sid` has
`last_reminder_sent = now`. -/
theorem LastSentSet_set_self (l : List Situation) (sid : Nat) (now : Int) :
    LastSentSet sid now (setSituationLastSent l sid now) := by
  intro s' hs' hid
  simp only [setSituationLastSent, List.mem_map] at hs'
  obtain ⟨s₀, _, hs₀⟩ := hs'
  by_cases hc : s₀.id = sid
  · rw [if_pos hc] at hs₀
    rw [← hs₀]
  · rw [if_neg hc] at hs₀
    rw [← hs₀] at hid
    exact absurd hid hc

/-- With a healthy store, one situation dispatch is exactly: record the send
attempt, append the log row, advance `last_reminder_sent`. -/
theorem dispatchSituation_ok (ctx : DeliveryCtx)
    (hok : ∀ n, ctx.storeOk n = true) (now : Int) (s : Situation)
    (st : PipeSt Situation) :
    dispatchSituation ctx now s st =
      .ok { entities := setSituationLastSent st.entities s.id now,
            rows := st.rows ++ [situationLogRow now s],
            sends := st.sends ++ [ctx.deliveryOk st.sends.length],
            writes := st.writes + 1 + 1 } := by
  simp only [dispatchSituation, sendEmailReminder, logReminder,
    updateSituationReminderSent]
  rw [if_pos (hok _)]
  dsimp only
  rw [if_pos (hok _)]

/-- With a healthy store, the situation loop never rejects, only appends
rows, preserves committed `last_reminder_sent` stamps, and commits the log
row and stamp of every due situation of the snapshot it walks. -/
theorem situationLoop_ok (ctx : DeliveryCtx)
    (hok : ∀ n, ctx.storeOk n = true) (now : Int) :
    ∀ (l : List Situation) (st : PipeSt Situation),
      (situationLoop ctx now l st).2 = false ∧
      (∃ t, (situationLoop ctx now l st).1.rows = st.rows ++ t) ∧
      (∀ sid : Nat, LastSentSet sid now st.entities →
        LastSentSet sid now (situationLoop ctx now l st).1.entities) ∧
      (∀ s ∈ l, situationDue now s = true →
        situationLogRow now s ∈ (situationLoop ctx now l st).1.rows ∧
        LastSentSet s.id now (situationLoop ctx now l st).1.entities)
  | [], st => ⟨rfl, ⟨[], by simp [situationLoop]⟩, fun _ h => h, by simp⟩
  | s :: rest, st => by
      by_cases hdue : situationDue now s = true
      · obtain ⟨hab, ⟨t', ht'⟩, hpres', hall'⟩ :=
          situationLoop_ok ctx hok now rest
            { entities := setSituationLastSent st.entities s.id now, rows := st.rows ++ [situationLogRow now s], sends := st.sends ++ [ctx.deliveryOk st.sends.length], writes := st.writes + 1 + 1 }
        have hloop : situationLoop ctx now (s :: rest) st =
            situationLoop ctx now rest
              { entities := setSituationLastSent st.entities s.id now, rows := st.rows ++ [situationLogRow now s], sends := st.sends ++ [ctx.deliveryOk st.sends.length], writes := st.writes + 1 + 1 } := by
          simp only [situationLoop, hdue, if_true,
            dispatchSituation_ok ctx hok now s st]
        refine ⟨by rw [hloop]; exact hab,
          ⟨situationLogRow now s :: t', by rw [hloop, ht']; simp⟩, ?_, ?_⟩
        · intro sid h
          rw [hloop]
          exact hpres' sid (LastSentSet_set_mono _ _ _ _ h)
        · intro s' hs' hd'
          rcases List.mem_cons.mp hs' with hs' | hs'
          · subst hs'
            constructor
            · rw [hloop, ht']
              simp
            · rw [hloop]
              exact hpres' s'.id (LastSentSet_set_self _ _ _)
          · rw [hloop]
            exact hall' s' hs' hd'
      · obtain ⟨hab, ⟨t', ht'⟩, hpres', hall'⟩ := situationLoop_ok ctx hok now rest st
        have hloop : situationLoop ctx now (s :: rest) st =
            situationLoop ctx now rest st := by
          simp [situationLoop, hdue]
        refine ⟨by rw [hloop]; exact hab, ⟨t', by rw [hloop, ht']⟩, ?_, ?_⟩
        · intro sid h
          rw [hloop]
          exact hpres' sid h
        · intro s' hs' hd'
          rcases List.mem_cons.mp hs' with hs' | hs'
          · subst hs'
            exact absurd hd' hdue
          · rw [hloop]
            exact hall' s' hs' hd'

/-- **C1 counterexample**: with every delivery attempt failing and a healthy
store, the tick on one due event still appends the `reminder_log` row and
flips `sent_1week`: `sendEmailReminder` swallows the failure, and the two
state writes run unconditionally after it, contradicting the claim that a
failed delivery leaves the notification unmarked and unlogged. -/
theorem c1_counterexample :
    (checkEventReminders ctxNoDelivery 100 [evA]).1.sends = [false] ∧
    (checkEventReminders ctxNoDelivery 100 [evA]).1.rows.map
        (fun r => r.related_event_id) = [some 1] ∧
    (checkEventReminders ctxNoDelivery 100 [evA]).1.entities.map
        (fun e => e.reminder_sent_1week) = [true] :=
  ⟨by decide, by decide, by decide⟩

/-- **C1 amended**: the two state writes do not depend on the delivery
outcome.  For every delivery oracle — including one where every send
fails — as long as the store writes succeed, every due event milestone of
the scanned window gets its `ReminderLog` row appended and its `sent_*`
latch flipped, and every due active situation gets its row appended and
`last_reminder_sent` advanced; only a store-write failure can prevent the
writes. -/
theorem c1_amended (ctx : DeliveryCtx) (hok : ∀ n, ctx.storeOk n = true)
    (now : Int) (events : List Event) (sits : List Situation) :
    (∀ e ∈ getUpcomingEvents now 14 events, ∀ m ∈ eventDue now e,
      eventLogRow e m ∈ (checkEventReminders ctx now events).1.rows ∧
      (∀ e' ∈ (checkEventReminders ctx now events).1.entities,
        e'.id = e.id → flagOf m e' = true)) ∧
    (∀ s ∈ getActiveSituations sits, situationDue now s = true →
      situationLogRow now s ∈ (checkSituationReminders ctx now sits).1.rows ∧
      (∀ s' ∈ (checkSituationReminders ctx now sits).1.entities,
        s'.id = s.id → s'.last_reminder_sent = some now)) := by
  constructor
  · intro e he m hm
    obtain ⟨_, _, _, hall⟩ := eventLoop_ok ctx hok now
      (getUpcomingEvents now 14 events)
      { entities := events, rows := [], sends := [], writes := 0 }
    obtain ⟨hrow, hflag⟩ := hall e he m hm
    exact ⟨hrow, fun e' he' hid => hflag e' he' hid⟩
  · intro s hs hd
    obtain ⟨_, _, _, hall⟩ := situationLoop_ok ctx hok now
      (getActiveSituations sits)
      { entities := sits, rows := [], sends := [], writes := 0 }
    obtain ⟨hrow, hstamp⟩ := hall s hs hd
    exact ⟨hrow, fun s' hs' hid => hstamp s' hs' hid⟩

/-- Witness for C1 amended: with every delivery failing but the store
healthy, the one due event still gets its row and latch. -/
theorem c1_amended_witness :
    eventLogRow evA Milestone.w1 ∈
        (checkEventReminders ctxNoDelivery 100 [evA]).1.rows ∧
      (∀ e' ∈ (checkEventReminders ctxNoDelivery 100 [evA]).1.entities,
        e'.id = evA.id → flagOf Milestone.w1 e' = true) :=
  (c1_amended ctxNoDelivery (fun _ => rfl) 100 [evA] []).1 evA
    (by decide) Milestone.w1 (by decide)

/-- Witness for C10 at the concrete severity text `"urgent"`: no interval,
not due. -/
theorem c10_unknown_severity_witness :
    reminderIntervalOf 100 sitUnknown = none ∧
      situationDue 100 sitUnknown = false :=
  ⟨(c10_unknown_severity 100 sitUnknown (by decide) (by decide) (by decide)).1,
    (c10_unknown_severity 100 sitUnknown (by decide) (by decide) (by decide)).2.1⟩

/-! ### C5: blast radius of a store-write failure -/

/-- **C5 counterexample**: two events are both due for `1week` on day 100;
the first store write (the log insert of the first event) throws, and the
whole event pipeline rejects: the second due event of the same pipeline gets
no log row and keeps `sent_1week = false`, contradicting the claim that the
remaining items of the same evaluator pipeline are still dispatched. -/
theorem c5_counterexample :
    eventDue 100 evB = [Milestone.w1] ∧
    (checkEventReminders ctxFirstWriteFails 100 [evA, evB]).2 = true ∧
    (checkEventReminders ctxFirstWriteFails 100 [evA, evB]).1.rows = [] ∧
    (checkEventReminders ctxFirstWriteFails 100 [evA, evB]).1.entities.map
        (fun e => e.reminder_sent_1week) = [false, false] :=
  ⟨by decide, by decide, by decide, by decide⟩

/-- **C5 amended**: a store-write failure aborts the current notification
item and skips the remaining items of the same evaluator pipeline (the
exception rethrows out of the `for` loop, so the loop result does not
depend on the rest of the snapshot); the other two evaluator pipelines of
the same tick are unaffected: their tables, appended rows and rejection
flags do not depend on the event pipeline's store or delivery oracles. -/
theorem c5_amended :
    (∀ (ctx : DeliveryCtx) (now : Int) (e : Event) (rest : List Event)
        (st stE : PipeSt Event),
      dispatchEventMilestones ctx e (eventDue now e) st = .error stE →
      eventLoop ctx now (e :: rest) st = (stE, true)) ∧
    (∀ (evCtx evCtx' sitCtx lcCtx : DeliveryCtx) (now : Int)
        (people : List Person) (events : List Event) (sits : List Situation),
      (checkAndSendFriendReminders evCtx sitCtx lcCtx now people events
          sits).situations =
        (checkAndSendFriendReminders evCtx' sitCtx lcCtx now people events
          sits).situations ∧
      (checkAndSendFriendReminders evCtx sitCtx lcCtx now people events
          sits).people =
        (checkAndSendFriendReminders evCtx' sitCtx lcCtx now people events
          sits).people ∧
      (checkAndSendFriendReminders evCtx sitCtx lcCtx now people events
          sits).situationRows =
        (checkAndSendFriendReminders evCtx' sitCtx lcCtx now people events
          sits).situationRows ∧
      (checkAndSendFriendReminders evCtx sitCtx lcCtx now people events
          sits).contactRows =
        (checkAndSendFriendReminders evCtx' sitCtx lcCtx now people events
          sits).contactRows ∧
      (checkAndSendFriendReminders evCtx sitCtx lcCtx now people events
          sits).situationAborted =
        (checkAndSendFriendReminders evCtx' sitCtx lcCtx now people events
          sits).situationAborted ∧
      (checkAndSendFriendReminders evCtx sitCtx lcCtx now people events
          sits).contactAborted =
        (checkAndSendFriendReminders evCtx' sitCtx lcCtx now people events
          sits).contactAborted) := by
  constructor
  · intro ctx now e rest st stE h
    simp only [eventLoop, h]
  · intro evCtx evCtx' sitCtx lcCtx now people events sits
    exact ⟨rfl, rfl, rfl, rfl, rfl, rfl⟩

/-- Witness for C5 amended: with the first store write failing, the loop on
the two due events stops at the first one; the second is never processed. -/
theorem c5_amended_witness :
    eventLoop ctxFirstWriteFails 100 [evA, evB]
        { entities := [evA, evB], rows := [], sends := [], writes := 0 } =
      ({ entities := [evA, evB], rows := [], sends := [true], writes := 1 },
        true) :=
  c5_amended.1 ctxFirstWriteFails 100 evA [evB] _ _ rfl

end PersonalCRM
